import Mathlib

/-!
Shallow embedding of the tmp1x2 temperature-sensor driver (TMP102/TMP112).

The driver keeps an in-memory shadow of the device's 16-bit configuration
register, split into a low and a high byte, and issues single-transaction
bus writes for every configuration change.  Bus outcomes are passed in
explicitly (`Except ε Unit` for a write, `Except ε (Nat × Nat)` for a
write-then-read of two bytes), and every operation returns, besides its
result and the updated handle, the list of bus transactions it issued.

Bytes are modelled as `Nat` (all register values stay below 256), the mode
tag is a phantom index of the handle type as in the Rust typestate, and
temperatures are rationals (the device codec is exact integer-to-rational
scaling on its representable grid).
-/

deriving instance DecidableEq for Except

namespace TMP

/-- Bitwise complement on a byte, the Rust `!` operator on `u8`. -/
def not8 (x : Nat) : Nat := 255 ^^^ x

namespace Register

/-- Temperature register address (src/src/lib.rs). -/
def TEMPERATURE : Nat := 0x00

/-- Configuration register address (src/src/lib.rs). -/
def CONFIG : Nat := 0x01

/-- Modelled from the spec: low-threshold register address.  The constant is
used by `set_low_temperature_threshold` but its declaration is not under
src/; the value follows the TMP102 register map the spec describes. -/
def T_LOW : Nat := 0x02

/-- Modelled from the spec: high-threshold register address.  The constant is
used by `set_high_temperature_threshold` but its declaration is not under
src/; the value follows the TMP102 register map the spec describes. -/
def T_HIGH : Nat := 0x03

end Register

namespace BitFlagsLow

/-- Shutdown bit of the configuration low byte (src/src/lib.rs). -/
def SHUTDOWN : Nat := 0x01

/-- Modelled from the spec: thermostat-mode bit of the low byte; its
declaration is not under src/. -/
def THERMOSTAT : Nat := 0x02

/-- Modelled from the spec: alert-polarity bit of the low byte; its
declaration is not under src/. -/
def ALERT_POLARITY : Nat := 0x04

/-- Modelled from the spec: low fault-queue bit of the low byte; its
declaration is not under src/. -/
def FAULT_QUEUE0 : Nat := 0x08

/-- Modelled from the spec: high fault-queue bit of the low byte; its
declaration is not under src/. -/
def FAULT_QUEUE1 : Nat := 0x10

/-- Resolution bits of the configuration low byte (src/src/lib.rs). -/
def RESOLUTION : Nat := 0x60

/-- Modelled from the spec: one-shot trigger bit of the low byte; its
declaration is not under src/ (it is used by src/src/reading.rs and
src/src/configuration.rs). -/
def ONE_SHOT : Nat := 0x80

end BitFlagsLow

namespace BitFlagsHigh

/-- Extended-mode bit of the configuration high byte (src/tests/common/mod.rs). -/
def EXTENDED_MODE : Nat := 0x10

/-- Alert bit of the configuration high byte (src/src/lib.rs). -/
def ALERT : Nat := 0x20

/-- Modelled from the spec: low conversion-rate bit of the high byte; its
declaration is not under src/ (CONV_RATE1 is, at 0x80). -/
def CONV_RATE0 : Nat := 0x40

/-- High conversion-rate bit of the configuration high byte (src/src/lib.rs). -/
def CONV_RATE1 : Nat := 0x80

end BitFlagsHigh

/-- The two configuration bytes mirrored by the driver (src/src/lib.rs). -/
structure Config where
  lsb : Nat
  msb : Nat
deriving DecidableEq, Repr

/-- Power-on-reset configuration value (src/src/lib.rs, `Default for Config`). -/
def Config.default : Config :=
  ⟨BitFlagsLow.RESOLUTION, BitFlagsHigh.ALERT ||| BitFlagsHigh.CONV_RATE1⟩

/-- Device-mode typestate markers (src/src/configuration.rs, `marker::mode`). -/
inductive Mode
  | Continuous
  | OneShot
deriving DecidableEq, Repr

/-- Driver handle: transport, resolved bus address, configuration shadow and
the conversion-started flag, tagged by the phantom mode index. -/
structure Tmp1x2 (ι : Type) (M : Mode) where
  i2c : ι
  address : Nat
  config : Config
  a_temperature_conversion_was_started : Bool
deriving DecidableEq, Repr

/-- Driver error type wrapping the transport's error (src/src/lib.rs). -/
inductive Error (ε : Type)
  | I2C : ε → Error ε
deriving DecidableEq, Repr

/-- Mode-change error: bundles the bus error with the returned original
handle (src/src/configuration.rs). -/
inductive ModeChangeError (ε ι : Type) (M : Mode)
  | I2C : ε → Tmp1x2 ι M → ModeChangeError ε ι M
deriving DecidableEq, Repr

/-- One bus write transaction: address and payload bytes. -/
structure I2cWrite where
  addr : Nat
  data : List Nat
deriving DecidableEq, Repr

/-- One bus write-then-read transaction: address and written bytes (the
read-back bytes are supplied by the bus outcome). -/
structure I2cWriteRead where
  addr : Nat
  out : List Nat
deriving DecidableEq, Repr

variable {ι ε : Type} {M : Mode}

/-- `write_register` (src/src/configuration.rs): one bus write of
`[register, msb, lsb]`, the handle untouched, the bus error wrapped. -/
def write_register (dev : Tmp1x2 ι M) (register lsb msb : Nat) (bus : Except ε Unit) :
    Except (Error ε) Unit × Tmp1x2 ι M × List I2cWrite :=
  (bus.mapError Error.I2C, dev, [⟨dev.address, [register, msb, lsb]⟩])

/-- `write_config` (src/src/configuration.rs): write the configuration
register, and only on success replace the shadow with the new bytes. -/
def write_config (dev : Tmp1x2 ι M) (lsb msb : Nat) (bus : Except ε Unit) :
    Except (Error ε) Unit × Tmp1x2 ι M × List I2cWrite :=
  match write_register dev Register.CONFIG lsb msb bus with
  | (Except.ok _, dev1, w) => (Except.ok (), { dev1 with config := ⟨lsb, msb⟩ }, w)
  | (Except.error e, dev1, w) => (Except.error e, dev1, w)

/-- `config_continuous` (src/src/configuration.rs): clear the shutdown bit. -/
def config_continuous (dev : Tmp1x2 ι M) (bus : Except ε Unit) :
    Except (Error ε) Unit × Tmp1x2 ι M × List I2cWrite :=
  write_config dev (dev.config.lsb &&& not8 BitFlagsLow.SHUTDOWN) dev.config.msb bus

/-- `config_one_shot` (src/src/configuration.rs): set the shutdown bit. -/
def config_one_shot (dev : Tmp1x2 ι M) (bus : Except ε Unit) :
    Except (Error ε) Unit × Tmp1x2 ι M × List I2cWrite :=
  write_config dev (dev.config.lsb ||| BitFlagsLow.SHUTDOWN) dev.config.msb bus

/-- `into_one_shot` (src/src/configuration.rs): on bus failure return the
original handle inside the error; on success rebuild the handle tagged
`OneShot`, with the conversion-started flag reset. -/
def into_one_shot (dev : Tmp1x2 ι Mode.Continuous) (bus : Except ε Unit) :
    Except (ModeChangeError ε ι Mode.Continuous) (Tmp1x2 ι Mode.OneShot) × List I2cWrite :=
  match config_one_shot dev bus with
  | (Except.error (Error.I2C e), dev1, w) => (Except.error (ModeChangeError.I2C e dev1), w)
  | (Except.ok _, dev1, w) =>
      (Except.ok { i2c := dev1.i2c, address := dev1.address, config := dev1.config,
                   a_temperature_conversion_was_started := false }, w)

/-- `into_continuous` (src/src/configuration.rs): symmetric to
`into_one_shot`. -/
def into_continuous (dev : Tmp1x2 ι Mode.OneShot) (bus : Except ε Unit) :
    Except (ModeChangeError ε ι Mode.OneShot) (Tmp1x2 ι Mode.Continuous) × List I2cWrite :=
  match config_continuous dev bus with
  | (Except.error (Error.I2C e), dev1, w) => (Except.error (ModeChangeError.I2C e dev1), w)
  | (Except.ok _, dev1, w) =>
      (Except.ok { i2c := dev1.i2c, address := dev1.address, config := dev1.config,
                   a_temperature_conversion_was_started := false }, w)

/-- `trigger_one_shot_measurement` (src/src/configuration.rs): write the
configuration bytes with the one-shot bit set in the low byte; the shadow
is deliberately not updated. -/
def trigger_one_shot_measurement (dev : Tmp1x2 ι Mode.OneShot) (bus : Except ε Unit) :
    Except (Error ε) Unit × Tmp1x2 ι Mode.OneShot × List I2cWrite :=
  (bus.mapError Error.I2C, dev,
    [⟨dev.address,
      [Register.CONFIG, dev.config.msb, dev.config.lsb ||| BitFlagsLow.ONE_SHOT]⟩])

/-- Conversion rates (src/src/configuration.rs, `ConversionRate`). -/
inductive ConversionRate
  | r0_25Hz
  | r1Hz
  | r4Hz
  | r8Hz
deriving DecidableEq, Repr

/-- `set_conversion_rate` (src/src/configuration.rs).  The parenthesisation
follows Rust operator precedence, where `&` binds tighter than `|`: the
`_4Hz` arm computes `msb | (CONV_RATE1 & !CONV_RATE0)`. -/
def set_conversion_rate (dev : Tmp1x2 ι M) (rate : ConversionRate) (bus : Except ε Unit) :
    Except (Error ε) Unit × Tmp1x2 ι M × List I2cWrite :=
  let lsb := dev.config.lsb
  let msb := dev.config.msb
  match rate with
  | ConversionRate.r0_25Hz =>
      write_config dev lsb ((msb &&& not8 BitFlagsHigh.CONV_RATE1) &&& not8 BitFlagsHigh.CONV_RATE0) bus
  | ConversionRate.r1Hz =>
      write_config dev lsb ((msb &&& not8 BitFlagsHigh.CONV_RATE1) ||| BitFlagsHigh.CONV_RATE0) bus
  | ConversionRate.r4Hz =>
      write_config dev lsb (msb ||| (BitFlagsHigh.CONV_RATE1 &&& not8 BitFlagsHigh.CONV_RATE0)) bus
  | ConversionRate.r8Hz =>
      write_config dev lsb ((msb ||| BitFlagsHigh.CONV_RATE1) ||| BitFlagsHigh.CONV_RATE0) bus

/-- Fault-queue depths (src/src/configuration.rs, `FaultQueue`). -/
inductive FaultQueue
  | f1
  | f2
  | f4
  | f6
deriving DecidableEq, Repr

/-- `set_fault_queue` (src/src/configuration.rs).  The parenthesisation
follows Rust operator precedence: the `_4` arm computes
`lsb | (FAULT_QUEUE1 & !FAULT_QUEUE0)`. -/
def set_fault_queue (dev : Tmp1x2 ι M) (fq : FaultQueue) (bus : Except ε Unit) :
    Except (Error ε) Unit × Tmp1x2 ι M × List I2cWrite :=
  let lsb := dev.config.lsb
  let msb := dev.config.msb
  match fq with
  | FaultQueue.f1 =>
      write_config dev ((lsb &&& not8 BitFlagsLow.FAULT_QUEUE1) &&& not8 BitFlagsLow.FAULT_QUEUE0) msb bus
  | FaultQueue.f2 =>
      write_config dev ((lsb &&& not8 BitFlagsLow.FAULT_QUEUE1) ||| BitFlagsLow.FAULT_QUEUE0) msb bus
  | FaultQueue.f4 =>
      write_config dev (lsb ||| (BitFlagsLow.FAULT_QUEUE1 &&& not8 BitFlagsLow.FAULT_QUEUE0)) msb bus
  | FaultQueue.f6 =>
      write_config dev ((lsb ||| BitFlagsLow.FAULT_QUEUE1) ||| BitFlagsLow.FAULT_QUEUE0) msb bus

/-- `enable_extended_mode` (src/src/configuration.rs). -/
def enable_extended_mode (dev : Tmp1x2 ι M) (bus : Except ε Unit) :
    Except (Error ε) Unit × Tmp1x2 ι M × List I2cWrite :=
  write_config dev dev.config.lsb (dev.config.msb ||| BitFlagsHigh.EXTENDED_MODE) bus

/-- `disable_extended_mode` (src/src/configuration.rs). -/
def disable_extended_mode (dev : Tmp1x2 ι M) (bus : Except ε Unit) :
    Except (Error ε) Unit × Tmp1x2 ι M × List I2cWrite :=
  write_config dev dev.config.lsb (dev.config.msb &&& not8 BitFlagsHigh.EXTENDED_MODE) bus

/-- `reset_internal_driver_state` (src/src/configuration.rs): reset the
shadow to the power-on default without touching the bus. -/
def reset_internal_driver_state (dev : Tmp1x2 ι M) : Tmp1x2 ι M :=
  { dev with config := Config.default }

/-- Modelled from the spec: `convert_temp_to_register_normal` of the
missing src/conversion.rs.  Clamp to `[-128, 127.9375]`, scale by 16 to a
12-bit two's-complement field, left-justify it in a 16-bit word (4 low bits
zero) and split into `(msb, lsb)`. -/
def convert_temp_to_register_normal (temp : ℚ) : Nat × Nat :=
  let clamped : ℚ := max (-128) (min temp (2047 / 16))
  let raw : ℤ := ⌊clamped * 16⌋
  let word : Nat := (raw % 4096).toNat * 16
  (word / 256, word % 256)

/-- Modelled from the spec: `convert_temp_from_register_normal` of the
missing src/conversion.rs.  Recombine the two bytes, drop the 4 unused low
bits, read the 12-bit field as two's complement and scale down by 16. -/
def convert_temp_from_register_normal (msb lsb : Nat) : ℚ :=
  let word : Nat := msb % 256 * 256 + lsb % 256
  let field : ℤ := (word : ℤ) / 16
  let value : ℤ := if field < 2048 then field else field - 4096
  (value : ℚ) / 16

/-- Modelled from the spec: `convert_temp_to_register_extended` of the
missing src/conversion.rs.  Clamp to `[-256, 255.875]`, scale by 8 to a
13-bit two's-complement field, left-justify it in a 16-bit word (3 low bits
zero) and split into `(msb, lsb)`. -/
def convert_temp_to_register_extended (temp : ℚ) : Nat × Nat :=
  let clamped : ℚ := max (-256) (min temp (2047 / 8))
  let raw : ℤ := ⌊clamped * 8⌋
  let word : Nat := (raw % 8192).toNat * 8
  (word / 256, word % 256)

/-- Modelled from the spec: `convert_temp_from_register_extended` of the
missing src/conversion.rs.  Recombine the two bytes, drop the 3 unused low
bits, read the 13-bit field as two's complement and scale down by 8. -/
def convert_temp_from_register_extended (msb lsb : Nat) : ℚ :=
  let word : Nat := msb % 256 * 256 + lsb % 256
  let field : ℤ := (word : ℤ) / 8
  let value : ℤ := if field < 4096 then field else field - 8192
  (value : ℚ) / 8

/-- Modelled from the spec: `convert_temp_from_register` used by
src/src/reading.rs, whose definition is not under src/; the normal-mode
decoding of a temperature register pair. -/
def convert_temp_from_register (msb lsb : Nat) : ℚ :=
  convert_temp_from_register_normal msb lsb

/-- `set_temperature_threshold` (src/src/configuration.rs): select the codec
by the shadow's extended-mode bit, then write the threshold register. -/
def set_temperature_threshold (dev : Tmp1x2 ι M) (temperature : ℚ) (register : Nat)
    (bus : Except ε Unit) :
    Except (Error ε) Unit × Tmp1x2 ι M × List I2cWrite :=
  if dev.config.msb &&& BitFlagsHigh.EXTENDED_MODE ≠ 0 then
    let p := convert_temp_to_register_extended temperature
    write_register dev register p.2 p.1 bus
  else
    let p := convert_temp_to_register_normal temperature
    write_register dev register p.2 p.1 bus

/-- `set_high_temperature_threshold` (src/src/configuration.rs). -/
def set_high_temperature_threshold (dev : Tmp1x2 ι M) (temperature : ℚ)
    (bus : Except ε Unit) :
    Except (Error ε) Unit × Tmp1x2 ι M × List I2cWrite :=
  set_temperature_threshold dev temperature Register.T_HIGH bus

/-- `set_low_temperature_threshold` (src/src/configuration.rs). -/
def set_low_temperature_threshold (dev : Tmp1x2 ι M) (temperature : ℚ)
    (bus : Except ε Unit) :
    Except (Error ε) Unit × Tmp1x2 ι M × List I2cWrite :=
  set_temperature_threshold dev temperature Register.T_LOW bus

/-- `read_temperature` (src/src/reading.rs): write-then-read of the
temperature register, decoding the two returned bytes. -/
def read_temperature (dev : Tmp1x2 ι M) (bus : Except ε (Nat × Nat)) :
    Except (Error ε) ℚ × Tmp1x2 ι M × List I2cWriteRead :=
  match bus with
  | Except.error e =>
      (Except.error (Error.I2C e), dev, [⟨dev.address, [Register.TEMPERATURE]⟩])
  | Except.ok (d0, d1) =>
      (Except.ok (convert_temp_from_register d0 d1), dev,
       [⟨dev.address, [Register.TEMPERATURE]⟩])

/-- `is_one_shot_measurement_result_ready` (src/src/reading.rs): write-then-
read of the configuration register; report whether the one-shot bit of the
returned low byte is set. -/
def is_one_shot_measurement_result_ready (dev : Tmp1x2 ι M) (bus : Except ε (Nat × Nat)) :
    Except (Error ε) Bool × Tmp1x2 ι M × List I2cWriteRead :=
  match bus with
  | Except.error e =>
      (Except.error (Error.I2C e), dev, [⟨dev.address, [Register.CONFIG]⟩])
  | Except.ok (_d0, d1) =>
      (Except.ok ((d1 &&& BitFlagsLow.ONE_SHOT) != 0), dev,
       [⟨dev.address, [Register.CONFIG]⟩])

/-- A concrete Continuous-mode handle: default address, fault-queue bit 0 set
in the low byte, conversion-rate bit 0 set in the high byte. -/
def devContinuous : Tmp1x2 Unit Mode.Continuous :=
  { i2c := (), address := 0x48, config := ⟨0x68, 0x60⟩,
    a_temperature_conversion_was_started := false }

/-- A concrete OneShot-mode handle with the power-on default shadow. -/
def devOneShot : Tmp1x2 Unit Mode.OneShot :=
  { i2c := (), address := 0x48, config := ⟨0x60, 0xA0⟩,
    a_temperature_conversion_was_started := false }

/-- C1: `write_config` issues exactly one bus write of
`[Register.CONFIG, new_msb, new_lsb]` for every bus outcome; on success it
replaces the shadow with `{lsb := new_lsb, msb := new_msb}` and returns
success; on bus failure it returns the wrapped bus error and leaves the
handle, shadow included, byte-for-byte unchanged. -/
theorem C1_write_config_contract (dev : Tmp1x2 ι M) (new_lsb new_msb : Nat) :
    (∀ bus : Except ε Unit,
      (write_config dev new_lsb new_msb bus).2.2
        = [⟨dev.address, [Register.CONFIG, new_msb, new_lsb]⟩])
    ∧ write_config dev new_lsb new_msb (Except.ok () : Except ε Unit)
        = (Except.ok (), { dev with config := ⟨new_lsb, new_msb⟩ },
           [⟨dev.address, [Register.CONFIG, new_msb, new_lsb]⟩])
    ∧ (∀ e : ε, write_config dev new_lsb new_msb (Except.error e)
        = (Except.error (Error.I2C e), dev,
           [⟨dev.address, [Register.CONFIG, new_msb, new_lsb]⟩])) := by
  refine ⟨fun bus => ?_, rfl, fun e => rfl⟩
  cases bus <;> rfl

/-- C2: evaluation of the code at a failing input.  With prior shadow
`⟨0x68, 0x60⟩` (fault-queue bit 0 and conversion-rate bit 0 set), a
successful `set_conversion_rate _4Hz` stores msb `0xE0` (both rate bits
set, the 8 Hz encoding) while clear-then-OR would give `0xA0`, and a
successful `set_fault_queue _4` stores lsb `0x78` while clear-then-OR
would give `0x70`: the `_4Hz` and `_4` arms never clear the low field bit,
because in Rust `&` binds tighter than `|`. -/
theorem C2_precedence_failing_input :
    ((set_conversion_rate (ε := Unit) devContinuous ConversionRate.r4Hz
        (Except.ok ())).2.1.config.msb = 0xE0
      ∧ ((devContinuous.config.msb &&& not8 BitFlagsHigh.CONV_RATE1)
            &&& not8 BitFlagsHigh.CONV_RATE0) ||| BitFlagsHigh.CONV_RATE1 = 0xA0)
    ∧ ((set_fault_queue (ε := Unit) devContinuous FaultQueue.f4
        (Except.ok ())).2.1.config.lsb = 0x78
      ∧ ((devContinuous.config.lsb &&& not8 BitFlagsLow.FAULT_QUEUE1)
            &&& not8 BitFlagsLow.FAULT_QUEUE0) ||| BitFlagsLow.FAULT_QUEUE1 = 0x70) := by
  decide

/-- C3: when the configuration bus write fails, `into_one_shot` returns the
bus error bundled with the original handle — shadow, address, transport and
flag exactly as before the call, and still typed `Continuous` — after
having issued the single configuration write; `into_continuous` satisfies
the symmetric contract from `OneShot`. -/
theorem C3_mode_change_failure_returns_original
    (devC : Tmp1x2 ι Mode.Continuous) (devO : Tmp1x2 ι Mode.OneShot) (e : ε) :
    into_one_shot devC (Except.error e)
      = (Except.error (ModeChangeError.I2C e devC),
         [⟨devC.address,
           [Register.CONFIG, devC.config.msb, devC.config.lsb ||| BitFlagsLow.SHUTDOWN]⟩])
    ∧ into_continuous devO (Except.error e)
      = (Except.error (ModeChangeError.I2C e devO),
         [⟨devO.address,
           [Register.CONFIG, devO.config.msb, devO.config.lsb &&& not8 BitFlagsLow.SHUTDOWN]⟩]) :=
  ⟨rfl, rfl⟩

/-- C4: counterexample to "a successful mode transition carries over the
configuration shadow unchanged from the consumed handle".  On the concrete
Continuous handle with shadow `⟨0x68, 0x60⟩` (shutdown bit clear), a
successful `into_one_shot` produces a handle whose shadow low byte is
`0x69`: the shutdown bit has been set, so the shadow differs from the
consumed handle's. -/
theorem C4_counterexample :
    (into_one_shot (ε := Unit) devContinuous (Except.ok ())).1
      = Except.ok { i2c := (), address := 0x48, config := ⟨0x69, 0x60⟩,
                    a_temperature_conversion_was_started := false }
    ∧ devContinuous.config ≠ Config.mk 0x69 0x60 := by
  decide

/-- C4 (amended): a successful mode transition produces a handle tagged with
the new mode that carries over the transport and the bus address unchanged,
and whose shadow is the consumed handle's shadow as updated by the
transition's configuration write — shutdown bit set by `into_one_shot`,
cleared by `into_continuous` — with the conversion-started flag reset. -/
theorem C4_mode_change_success_carries_state
    (devC : Tmp1x2 ι Mode.Continuous) (devO : Tmp1x2 ι Mode.OneShot) :
    (into_one_shot devC (Except.ok () : Except ε Unit)).1
      = Except.ok { i2c := devC.i2c, address := devC.address,
                    config := ⟨devC.config.lsb ||| BitFlagsLow.SHUTDOWN, devC.config.msb⟩,
                    a_temperature_conversion_was_started := false }
    ∧ (into_continuous devO (Except.ok () : Except ε Unit)).1
      = Except.ok { i2c := devO.i2c, address := devO.address,
                    config := ⟨devO.config.lsb &&& not8 BitFlagsLow.SHUTDOWN, devO.config.msb⟩,
                    a_temperature_conversion_was_started := false } :=
  ⟨rfl, rfl⟩

/-- C5: `trigger_one_shot_measurement` issues exactly one bus write of the
configuration register whose high byte is the shadowed msb and whose low
byte is the shadowed lsb with the one-shot bit set, and — whether the bus
write succeeds or fails — leaves the handle, both shadow bytes included,
unchanged. -/
theorem C5_trigger_writes_without_caching (dev : Tmp1x2 ι Mode.OneShot)
    (bus : Except ε Unit) :
    (trigger_one_shot_measurement dev bus).2.2
      = [⟨dev.address,
          [Register.CONFIG, dev.config.msb, dev.config.lsb ||| BitFlagsLow.ONE_SHOT]⟩]
    ∧ (trigger_one_shot_measurement dev bus).2.1 = dev :=
  ⟨rfl, rfl⟩

/-- C6: counterexample to "returns true exactly when the one-shot bit has
cleared".  With the bus returning configuration bytes `(0xA0, 0x00)` — the
one-shot bit of the low byte cleared — the readiness poll returns `false`,
not `true`. -/
theorem C6_counterexample :
    (0 &&& BitFlagsLow.ONE_SHOT = 0)
    ∧ (is_one_shot_measurement_result_ready (ε := Unit) devOneShot
        (Except.ok (0xA0, 0))).1 = Except.ok false := by
  decide

/-- C6 (amended): the readiness poll always issues the single
write-then-read transaction of the configuration register address, and for
any handle — the shadow is never consulted — it returns true exactly when
the one-shot bit of the returned low byte is SET. -/
theorem C6_readiness_poll_reads_bus (dev : Tmp1x2 ι M) :
    (∀ bus : Except ε (Nat × Nat),
      (is_one_shot_measurement_result_ready dev bus).2.2
        = [⟨dev.address, [Register.CONFIG]⟩])
    ∧ (∀ d0 d1 : Nat,
      ((is_one_shot_measurement_result_ready dev (Except.ok (d0, d1) : Except ε (Nat × Nat))).1
          = Except.ok true
        ↔ d1 &&& BitFlagsLow.ONE_SHOT ≠ 0)) := by
  refine ⟨fun bus => by cases bus <;> rfl, fun d0 d1 => ?_⟩
  simp [is_one_shot_measurement_result_ready]

/-- C7: the threshold setters select the codec by the extended-mode bit of
the current shadow msb, issue exactly one bus write of
`[threshold register address, msb, lsb]` — an address distinct from the
configuration register's — and leave the handle, configuration shadow
included, unchanged. -/
theorem C7_threshold_setters_select_codec (dev : Tmp1x2 ι M) (t : ℚ)
    (bus : Except ε Unit) :
    (set_high_temperature_threshold dev t bus).2.2
      = [⟨dev.address,
          [Register.T_HIGH,
           (if dev.config.msb &&& BitFlagsHigh.EXTENDED_MODE ≠ 0
            then convert_temp_to_register_extended t
            else convert_temp_to_register_normal t).1,
           (if dev.config.msb &&& BitFlagsHigh.EXTENDED_MODE ≠ 0
            then convert_temp_to_register_extended t
            else convert_temp_to_register_normal t).2]⟩]
    ∧ (set_high_temperature_threshold dev t bus).2.1 = dev
    ∧ (set_low_temperature_threshold dev t bus).2.2
      = [⟨dev.address,
          [Register.T_LOW,
           (if dev.config.msb &&& BitFlagsHigh.EXTENDED_MODE ≠ 0
            then convert_temp_to_register_extended t
            else convert_temp_to_register_normal t).1,
           (if dev.config.msb &&& BitFlagsHigh.EXTENDED_MODE ≠ 0
            then convert_temp_to_register_extended t
            else convert_temp_to_register_normal t).2]⟩]
    ∧ (set_low_temperature_threshold dev t bus).2.1 = dev
    ∧ Register.T_HIGH ≠ Register.CONFIG
    ∧ Register.T_LOW ≠ Register.CONFIG := by
  refine ⟨?_, ?_, ?_, ?_, by decide, by decide⟩ <;>
    · simp only [set_high_temperature_threshold, set_low_temperature_threshold,
        set_temperature_threshold, write_register]
      by_cases h : dev.config.msb &&& BitFlagsHigh.EXTENDED_MODE ≠ 0 <;> simp [h]

/-- Round trip of the normal-mode codec on a representable temperature
`k / 16` with `k` a 12-bit two's-complement integer. -/
theorem convert_normal_round_trip (k : ℤ) (h1 : -2048 ≤ k) (h2 : k ≤ 2047) :
    convert_temp_from_register_normal
        (convert_temp_to_register_normal ((k : ℚ) / 16)).1
        (convert_temp_to_register_normal ((k : ℚ) / 16)).2
      = (k : ℚ) / 16 := by
  have h16 : (0 : ℚ) < 16 := by norm_num
  have hle : (k : ℚ) / 16 ≤ 2047 / 16 :=
    (div_le_div_iff_of_pos_right h16).mpr (by exact_mod_cast h2)
  have hge : (-128 : ℚ) ≤ (k : ℚ) / 16 := by
    rw [show (-128 : ℚ) = -2048 / 16 by norm_num]
    exact (div_le_div_iff_of_pos_right h16).mpr (by exact_mod_cast h1)
  have hclamp : max (-128 : ℚ) (min ((k : ℚ) / 16) (2047 / 16)) = (k : ℚ) / 16 := by
    rw [min_eq_left hle, max_eq_right hge]
  have hfloor : ⌊((k : ℚ) / 16) * 16⌋ = k := by
    rw [div_mul_cancel₀ _ (by norm_num : (16 : ℚ) ≠ 0)]
    exact Int.floor_intCast k
  simp only [convert_temp_to_register_normal, convert_temp_from_register_normal]
  rw [hclamp, hfloor]
  have hm0 : (((k % 4096).toNat : ℤ)) = k % 4096 :=
    Int.toNat_of_nonneg (Int.emod_nonneg k (by norm_num))
  have hmlt : (k % 4096).toNat < 4096 := by omega
  have hword : (k % 4096).toNat * 16 / 256 % 256 * 256 + (k % 4096).toNat * 16 % 256 % 256
      = (k % 4096).toNat * 16 := by omega
  rw [hword]
  have hfield : (((k % 4096).toNat * 16 : ℕ) : ℤ) / 16 = k % 4096 := by
    push_cast
    omega
  rw [hfield]
  have hvalue : (if k % 4096 < 2048 then k % 4096 else k % 4096 - 4096) = k := by
    split <;> omega
  rw [hvalue]

/-- Round trip of the extended-mode codec on a representable temperature
`j / 8` with `j` a 13-bit two's-complement integer. -/
theorem convert_extended_round_trip (j : ℤ) (h1 : -2048 ≤ j) (h2 : j ≤ 2047) :
    convert_temp_from_register_extended
        (convert_temp_to_register_extended ((j : ℚ) / 8)).1
        (convert_temp_to_register_extended ((j : ℚ) / 8)).2
      = (j : ℚ) / 8 := by
  have h8 : (0 : ℚ) < 8 := by norm_num
  have hle : (j : ℚ) / 8 ≤ 2047 / 8 :=
    (div_le_div_iff_of_pos_right h8).mpr (by exact_mod_cast h2)
  have hge : (-256 : ℚ) ≤ (j : ℚ) / 8 := by
    rw [show (-256 : ℚ) = -2048 / 8 by norm_num]
    exact (div_le_div_iff_of_pos_right h8).mpr (by exact_mod_cast h1)
  have hclamp : max (-256 : ℚ) (min ((j : ℚ) / 8) (2047 / 8)) = (j : ℚ) / 8 := by
    rw [min_eq_left hle, max_eq_right hge]
  have hfloor : ⌊((j : ℚ) / 8) * 8⌋ = j := by
    rw [div_mul_cancel₀ _ (by norm_num : (8 : ℚ) ≠ 0)]
    exact Int.floor_intCast j
  simp only [convert_temp_to_register_extended, convert_temp_from_register_extended]
  rw [hclamp, hfloor]
  have hm0 : (((j % 8192).toNat : ℤ)) = j % 8192 :=
    Int.toNat_of_nonneg (Int.emod_nonneg j (by norm_num))
  have hmlt : (j % 8192).toNat < 8192 := by omega
  have hword : (j % 8192).toNat * 8 / 256 % 256 * 256 + (j % 8192).toNat * 8 % 256 % 256
      = (j % 8192).toNat * 8 := by omega
  rw [hword]
  have hfield : (((j % 8192).toNat * 8 : ℕ) : ℤ) / 8 = j % 8192 := by
    push_cast
    omega
  rw [hfield]
  have hvalue : (if j % 8192 < 4096 then j % 8192 else j % 8192 - 8192) = j := by
    split <;> omega
  rw [hvalue]

/-- C8: decoding the normal-mode encoding of any representable temperature
`k / 16` (with `k` ranging over the 12-bit two's-complement integers, i.e.
temperatures in `[-128, 127.9375]` at `0.0625` steps) returns exactly that
temperature, and likewise for the extended-mode codec on `j / 8` (with `j`
in `[-2048, 2047]`, i.e. temperatures in `[-256, 255.875]` at `0.125`
steps). -/
theorem C8_codec_round_trip (k j : ℤ) (hk₁ : -2048 ≤ k) (hk₂ : k ≤ 2047)
    (hj₁ : -2048 ≤ j) (hj₂ : j ≤ 2047) :
    convert_temp_from_register_normal
        (convert_temp_to_register_normal ((k : ℚ) / 16)).1
        (convert_temp_to_register_normal ((k : ℚ) / 16)).2
      = (k : ℚ) / 16
    ∧ convert_temp_from_register_extended
        (convert_temp_to_register_extended ((j : ℚ) / 8)).1
        (convert_temp_to_register_extended ((j : ℚ) / 8)).2
      = (j : ℚ) / 8 :=
  ⟨convert_normal_round_trip k hk₁ hk₂, convert_extended_round_trip j hj₁ hj₂⟩

/-- C8 witness: the round trip at the concrete representable temperatures
`-5 / 16` (normal mode) and `999 / 8` (extended mode). -/
theorem C8_codec_round_trip_witness :
    ((-2048 : ℤ) ≤ -5 ∧ (-5 : ℤ) ≤ 2047 ∧ (-2048 : ℤ) ≤ 999 ∧ (999 : ℤ) ≤ 2047)
    ∧ (convert_temp_from_register_normal
          (convert_temp_to_register_normal (((-5 : ℤ) : ℚ) / 16)).1
          (convert_temp_to_register_normal (((-5 : ℤ) : ℚ) / 16)).2
        = ((-5 : ℤ) : ℚ) / 16
      ∧ convert_temp_from_register_extended
          (convert_temp_to_register_extended (((999 : ℤ) : ℚ) / 8)).1
          (convert_temp_to_register_extended (((999 : ℤ) : ℚ) / 8)).2
        = ((999 : ℤ) : ℚ) / 8) :=
  ⟨⟨by norm_num, by norm_num, by norm_num, by norm_num⟩,
   C8_codec_round_trip (-5) 999 (by norm_num) (by norm_num) (by norm_num) (by norm_num)⟩

/-- Any input at or above the top of the normal range encodes like the top
boundary `2047 / 16 = 127.9375`. -/
theorem convert_normal_clamp_high (t : ℚ) (h : 2047 / 16 ≤ t) :
    convert_temp_to_register_normal t = convert_temp_to_register_normal (2047 / 16) := by
  simp only [convert_temp_to_register_normal]
  rw [min_eq_right h, min_self]

/-- Any input at or below the bottom of the normal range encodes like the
bottom boundary `-128`. -/
theorem convert_normal_clamp_low (u : ℚ) (h : u ≤ -128) :
    convert_temp_to_register_normal u = convert_temp_to_register_normal (-128) := by
  simp only [convert_temp_to_register_normal]
  rw [min_eq_left (h.trans (by norm_num)), min_eq_left (by norm_num : (-128 : ℚ) ≤ 2047 / 16),
    max_eq_left h, max_self]

/-- Any input at or above the top of the extended range encodes like the top
boundary `2047 / 8 = 255.875`. -/
theorem convert_extended_clamp_high (v : ℚ) (h : 2047 / 8 ≤ v) :
    convert_temp_to_register_extended v = convert_temp_to_register_extended (2047 / 8) := by
  simp only [convert_temp_to_register_extended]
  rw [min_eq_right h, min_self]

/-- Any input at or below the bottom of the extended range encodes like the
bottom boundary `-256`. -/
theorem convert_extended_clamp_low (w : ℚ) (h : w ≤ -256) :
    convert_temp_to_register_extended w = convert_temp_to_register_extended (-256) := by
  simp only [convert_temp_to_register_extended]
  rw [min_eq_left (h.trans (by norm_num)), min_eq_left (by norm_num : (-256 : ℚ) ≤ 2047 / 8),
    max_eq_left h, max_self]

/-- C9: the encoders are total and clamp out-of-range inputs to the nearest
representable boundary — any input beyond a range end encodes identically
to that boundary, in both modes — and in particular `1000` encodes like
`127.9375 = 2047 / 16` and `-1000` like `-128` in normal mode. -/
theorem C9_encode_clamps (t u v w : ℚ) (ht : 2047 / 16 ≤ t) (hu : u ≤ -128)
    (hv : 2047 / 8 ≤ v) (hw : w ≤ -256) :
    convert_temp_to_register_normal t = convert_temp_to_register_normal (2047 / 16)
    ∧ convert_temp_to_register_normal u = convert_temp_to_register_normal (-128)
    ∧ convert_temp_to_register_extended v = convert_temp_to_register_extended (2047 / 8)
    ∧ convert_temp_to_register_extended w = convert_temp_to_register_extended (-256)
    ∧ convert_temp_to_register_normal 1000 = convert_temp_to_register_normal (2047 / 16)
    ∧ convert_temp_to_register_normal (-1000) = convert_temp_to_register_normal (-128) :=
  ⟨convert_normal_clamp_high t ht, convert_normal_clamp_low u hu,
   convert_extended_clamp_high v hv, convert_extended_clamp_low w hw,
   convert_normal_clamp_high 1000 (by norm_num), convert_normal_clamp_low (-1000) (by norm_num)⟩

/-- C9 witness: clamping at the concrete inputs `1000`, `-1000`, `300` and
`-300`. -/
theorem C9_encode_clamps_witness :
    ((2047 / 16 : ℚ) ≤ 1000 ∧ (-1000 : ℚ) ≤ -128
      ∧ (2047 / 8 : ℚ) ≤ 300 ∧ (-300 : ℚ) ≤ -256)
    ∧ (convert_temp_to_register_normal 1000 = convert_temp_to_register_normal (2047 / 16)
      ∧ convert_temp_to_register_normal (-1000) = convert_temp_to_register_normal (-128)
      ∧ convert_temp_to_register_extended 300 = convert_temp_to_register_extended (2047 / 8)
      ∧ convert_temp_to_register_extended (-300) = convert_temp_to_register_extended (-256)
      ∧ convert_temp_to_register_normal 1000 = convert_temp_to_register_normal (2047 / 16)
      ∧ convert_temp_to_register_normal (-1000) = convert_temp_to_register_normal (-128)) :=
  ⟨⟨by norm_num, by norm_num, by norm_num, by norm_num⟩,
   C9_encode_clamps 1000 (-1000) 300 (-300) (by norm_num) (by norm_num) (by norm_num)
     (by norm_num)⟩

/-- C10: the read operations `read_temperature` and
`is_one_shot_measurement_result_ready` leave every field of the handle —
shadow bytes, address, transport, flag — unchanged, whether the bus
transaction succeeds or fails. -/
theorem C10_reads_preserve_handle (dev : Tmp1x2 ι M) (bus : Except ε (Nat × Nat)) :
    (read_temperature dev bus).2.1 = dev
    ∧ (is_one_shot_measurement_result_ready dev bus).2.1 = dev := by
  cases bus <;> exact ⟨rfl, rfl⟩

end TMP
